import Mathlib

/-!
Shallow embedding of the go-acp-server turn runtime and its collaborators:
the context composer (internal/httpapi, composeContextPrompt and helpers),
the turn controller (internal/runtime), the permission bridge, the SSE turn
pipeline, the storage event log (internal/storage, AppendEvent), and the
HTTP handlers for thread lookup, permission decisions and compact.
Definitions are translated from the Go source; theorems settle the frozen
claims about them.
-/

/-- Rune predicate mirroring Go unicode.IsSpace for the code points that
strings.TrimSpace can strip (ASCII whitespace, NEL, NBSP and the Unicode
space separators). -/
def goIsSpace (c : Char) : Bool :=
  c == ' ' || c == '\t' || c == '\n' || c == '\x0B' || c == '\x0C' || c == '\r' ||
  c == '\x85' || c == '\xA0' || c == '\u1680' ||
  ('\u2000' ≤ c && c ≤ '\u200A') ||
  c == '\u2028' || c == '\u2029' || c == '\u202F' || c == '\u205F' || c == '\u3000'

/-- Go strings.TrimSpace: drop leading and trailing white-space runes. -/
def goTrimSpace (s : String) : String :=
  String.mk (((s.toList.dropWhile goIsSpace).reverse.dropWhile goIsSpace).reverse)

/-- Go runeLen helper: length of the string in runes, len of rune slice. -/
def runeLen (s : String) : Nat := s.toList.length

/-- Go maxInt helper from the httpapi package. -/
def maxInt (a b : Int) : Int := if a > b then a else b

/-- Go clampToChars: empty for a non-positive budget, identity when within
the budget, else keep the first maxChars runes. -/
def clampToChars (text : String) (maxChars : Int) : String :=
  if maxChars ≤ 0 then ""
  else if (text.toList.length : Int) ≤ maxChars then text
  else String.mk (text.toList.take maxChars.toNat)

/-- Go truncateFromEnd: empty for a non-positive budget, identity when
within the budget, else keep the last maxChars runes. -/
def truncateFromEnd (text : String) (maxChars : Int) : String :=
  if maxChars ≤ 0 then ""
  else if (text.toList.length : Int) ≤ maxChars then text
  else String.mk (text.toList.drop (text.toList.length - maxChars.toNat))

/-- Persisted turn row fields used by the context composer. -/
structure StTurn where
  requestText : String
  responseText : String
  isInternal : Bool
deriving DecidableEq, Repr

/-- One rendered recent-turn block of renderContextPrompt. -/
def renderTurnBlock (t : StTurn) : String :=
  "User: " ++ goTrimSpace t.requestText ++ "\nAssistant: " ++
    goTrimSpace t.responseText ++ "\n"

/-- The recent-turns section body of renderContextPrompt. -/
def renderRecentTurns (turns : List StTurn) : String :=
  match turns with
  | [] => "(none)"
  | _ => String.join (turns.map renderTurnBlock) ++ "----"

/-- Go renderContextPrompt: headings plus summary, recent turns and the
current input. -/
def renderContextPrompt (summary : String) (recentTurns : List StTurn)
    (currentInput : String) : String :=
  "[Conversation Summary]\n" ++
    (if summary = "" then "(empty)" else summary) ++
    "\n\n[Recent Turns]\n" ++ renderRecentTurns recentTurns ++
    "\n\n[Current User Input]\n" ++ currentInput

/-- The 256-iteration trim loop of composeContextPrompt, with the loop
counter as structural fuel; fuel 0 is the post-loop brute clamp. -/
def composeLoop : Nat → String → List StTurn → String → Int → String
  | 0, summary, recent, currentInput, maxChars =>
      clampToChars (renderContextPrompt summary recent currentInput) maxChars
  | fuel + 1, summary, recent, currentInput, maxChars =>
      let prompt := renderContextPrompt summary recent currentInput
      if maxChars ≤ 0 ∨ (runeLen prompt : Int) ≤ maxChars then prompt
      else if recent.length > 0 then
        composeLoop fuel summary (recent.drop 1) currentInput maxChars
      else if runeLen summary > 0 then
        composeLoop fuel
          (clampToChars summary
            ((runeLen summary : Int) - maxInt 1 ((runeLen summary : Int) / 4)))
          recent currentInput maxChars
      else if runeLen currentInput > 0 then
        composeLoop fuel summary recent
          (truncateFromEnd currentInput
            ((runeLen currentInput : Int) - maxInt 1 ((runeLen currentInput : Int) / 4)))
          maxChars
      else clampToChars prompt maxChars

/-- Go composeContextPrompt: trim the inputs, pass the current input
through on the very first turn, otherwise run the trim loop. -/
def composeContextPrompt (summary : String) (recentTurns : List StTurn)
    (currentInput : String) (maxChars : Int) : String :=
  let summary := goTrimSpace summary
  let currentInput := goTrimSpace currentInput
  if summary = "" ∧ recentTurns.length = 0 then
    if maxChars ≤ 0 ∨ (runeLen currentInput : Int) ≤ maxChars then currentInput
    else clampToChars currentInput maxChars
  else composeLoop 256 summary recentTurns currentInput maxChars

theorem runeLen_mk (l : List Char) : runeLen (String.mk l) = l.length := rfl

theorem clampToChars_of_within (t : String) (m : Int) (h0 : ¬ m ≤ 0)
    (h : (runeLen t : Int) ≤ m) : clampToChars t m = t := by
  unfold clampToChars
  rw [if_neg h0, if_pos (show ((t.toList.length : Int)) ≤ m from h)]

theorem runeLen_clampToChars_le (t : String) (m : Int) (hm : 0 ≤ m) :
    (runeLen (clampToChars t m) : Int) ≤ m := by
  unfold clampToChars
  by_cases h0 : m ≤ 0
  · rw [if_pos h0]
    have : m = 0 := le_antisymm h0 hm
    simp [this, runeLen]
  · rw [if_neg h0]
    by_cases hlen : ((t.toList.length : Int)) ≤ m
    · rw [if_pos hlen]; exact hlen
    · rw [if_neg hlen]
      rw [runeLen_mk]
      have h1 : (t.toList.take m.toNat).length ≤ m.toNat :=
        List.length_take_le m.toNat t.toList
      calc ((t.toList.take m.toNat).length : Int) ≤ (m.toNat : Int) := by
            exact_mod_cast h1
        _ = m := Int.toNat_of_nonneg hm

theorem runeLen_composeLoop_le (fuel : Nat) (s : String) (r : List StTurn)
    (i : String) (m : Int) (hm : 1 ≤ m) :
    (runeLen (composeLoop fuel s r i m) : Int) ≤ m := by
  induction fuel generalizing s r i with
  | zero =>
      exact runeLen_clampToChars_le _ m (le_trans (by norm_num) hm)
  | succ fuel ih =>
      unfold composeLoop
      by_cases hc : m ≤ 0 ∨ (runeLen (renderContextPrompt s r i) : Int) ≤ m
      · rcases hc with hc | hc
        · omega
        · simp only [if_pos (Or.inr hc)]
          exact hc
      · simp only [if_neg hc]
        by_cases hr : r.length > 0
        · simp only [if_pos hr]; exact ih _ _ _
        · simp only [if_neg hr]
          by_cases hs : runeLen s > 0
          · simp only [if_pos hs]; exact ih _ _ _
          · simp only [if_neg hs]
            by_cases hi : runeLen i > 0
            · simp only [if_pos hi]; exact ih _ _ _
            · simp only [if_neg hi]
              exact runeLen_clampToChars_le _ m (le_trans (by norm_num) hm)

theorem runeLen_composeContextPrompt_le (s : String) (r : List StTurn)
    (i : String) (m : Int) (hm : 1 ≤ m) :
    (runeLen (composeContextPrompt s r i m) : Int) ≤ m := by
  unfold composeContextPrompt
  by_cases hfirst : goTrimSpace s = "" ∧ r.length = 0
  · simp only [hfirst, and_self, if_true]
    by_cases hc : m ≤ 0 ∨ (runeLen (goTrimSpace i) : Int) ≤ m
    · rcases hc with hc | hc
      · omega
      · simp only [if_pos (Or.inr hc)]
        exact hc
    · simp only [if_neg hc]
      exact runeLen_clampToChars_le _ m (le_trans (by norm_num) hm)
  · simp only [if_neg hfirst]
    exact runeLen_composeLoop_le 256 _ _ _ m hm

/-- C6: for any summary, recent-turn list, current input and budget
m ≥ 1, the composed prompt has rune length at most m, and in particular
recomposing the composed prompt as a summary with empty recent turns and
empty input stays within m runes. -/
theorem composeContextPrompt_within_budget (s : String) (r : List StTurn)
    (i : String) (m : Int) (hm : 1 ≤ m) :
    (runeLen (composeContextPrompt s r i m) : Int) ≤ m ∧
    (runeLen (composeContextPrompt (composeContextPrompt s r i m) [] "" m) : Int) ≤ m := by
  exact ⟨runeLen_composeContextPrompt_le s r i m hm,
    runeLen_composeContextPrompt_le _ [] "" m hm⟩

/-- Witness for C6: the bound evaluated at a concrete call with budget 10. -/
theorem composeContextPrompt_within_budget_witness :
    (1 : Int) ≤ 10 ∧
    ((runeLen (composeContextPrompt "a summary" [⟨"hi", "there", false⟩] "question" 10) : Int) ≤ 10 ∧
     (runeLen (composeContextPrompt
        (composeContextPrompt "a summary" [⟨"hi", "there", false⟩] "question" 10) [] "" 10) : Int) ≤ 10) :=
  ⟨by norm_num,
   composeContextPrompt_within_budget "a summary" [⟨"hi", "there", false⟩] "question" 10 (by norm_num)⟩

/-- C7: with a blank summary and no recent turns, the composer returns the
trimmed current input rune-truncated to the budget, with no headings. -/
theorem composeContextPrompt_first_turn_pass_through (s i : String) (m : Int)
    (hs : goTrimSpace s = "") (hm : 1 ≤ m) :
    composeContextPrompt s [] i m = clampToChars (goTrimSpace i) m := by
  unfold composeContextPrompt
  simp only [hs, List.length_nil, and_self, if_true]
  by_cases hc : m ≤ 0 ∨ (runeLen (goTrimSpace i) : Int) ≤ m
  · rcases hc with hc | hc
    · omega
    · rw [if_pos (Or.inr hc)]
      have h0 : ¬ m ≤ 0 := by omega
      rw [clampToChars_of_within _ _ h0 hc]
  · rw [if_neg hc]

/-- Witness for C7: a slash-command first-turn input passes through
verbatim under a large budget and is rune-truncated under a small one. -/
theorem composeContextPrompt_first_turn_pass_through_witness :
    goTrimSpace " " = "" ∧ (1 : Int) ≤ 1024 ∧
    composeContextPrompt " " [] "/mcp call demo_server demo_tool now" 1024 =
      clampToChars (goTrimSpace "/mcp call demo_server demo_tool now") 1024 :=
  ⟨by decide, by norm_num,
    composeContextPrompt_first_turn_pass_through " " "/mcp call demo_server demo_tool now" 1024
      (by decide) (by norm_num)⟩

/-- Boolean substring check: hay contains sub as a contiguous rune run. -/
def strContains (hay sub : String) : Bool :=
  (List.range (hay.toList.length + 1)).any
    (fun idx => ((hay.toList.drop idx).take sub.toList.length) == sub.toList)

/-- Go loadRecentVisibleTurns: drop internal turns, keep the most recent
contextRecentTurns entries. -/
def loadRecentVisibleTurns (turns : List StTurn) (contextRecentTurns : Nat) :
    List StTurn :=
  let filtered := turns.filter (fun t => !t.isInternal)
  if filtered.length > contextRecentTurns then
    filtered.drop (filtered.length - contextRecentTurns)
  else filtered

/-- What handleCreateTurnStream persists in the turns row and what it
passes to the provider. -/
structure TurnStreamSetup where
  persistedRequestText : String
  injectedPrompt : String
deriving DecidableEq, Repr

/-- The prompt construction and turn persistence of handleCreateTurnStream:
buildInjectedPrompt composes the context prompt over the stored summary and
recent visible turns, while CreateTurn receives RequestText taken from the
request body input. -/
def handleCreateTurnStreamSetup (summary : String) (threadTurns : List StTurn)
    (input : String) (contextRecentTurns : Nat) (contextMaxChars : Int) :
    TurnStreamSetup :=
  { persistedRequestText := input
    injectedPrompt :=
      composeContextPrompt summary
        (loadRecentVisibleTurns threadTurns contextRecentTurns) input
        contextMaxChars }

set_option maxRecDepth 40000 in
/-- C1 counterexample: on a thread whose prior turn asked
"pre-restart message", a second turn with input "post-restart message"
persists a requestText that differs from the injected prompt and does not
contain "User: pre-restart message", while the injected prompt does. -/
theorem persisted_request_text_not_injected_prompt :
    (handleCreateTurnStreamSetup "" [⟨"pre-restart message", "echo reply", false⟩]
        "post-restart message" 10 20000).persistedRequestText ≠
      (handleCreateTurnStreamSetup "" [⟨"pre-restart message", "echo reply", false⟩]
        "post-restart message" 10 20000).injectedPrompt ∧
    strContains
      (handleCreateTurnStreamSetup "" [⟨"pre-restart message", "echo reply", false⟩]
        "post-restart message" 10 20000).persistedRequestText
      "User: pre-restart message" = false ∧
    strContains
      (handleCreateTurnStreamSetup "" [⟨"pre-restart message", "echo reply", false⟩]
        "post-restart message" 10 20000).injectedPrompt
      "User: pre-restart message" = true :=
  ⟨by decide, by decide, by decide⟩

/-- C1 amended: the turns row persists requestText equal to the raw request
body input, while the composed context prompt over summary and recent
visible turns is only what is sent to the provider. -/
theorem persisted_request_text_is_raw_input (summary : String)
    (threadTurns : List StTurn) (input : String) (n : Nat) (m : Int) :
    (handleCreateTurnStreamSetup summary threadTurns input n m).persistedRequestText
        = input ∧
    (handleCreateTurnStreamSetup summary threadTurns input n m).injectedPrompt =
      composeContextPrompt summary (loadRecentVisibleTurns threadTurns n) input m :=
  ⟨rfl, rfl⟩

/-- One registered active turn of the runtime.TurnController. -/
structure ActiveTurnEntry where
  threadID : String
  turnID : String
deriving DecidableEq, Repr

/-- TurnController state: the thread-keyed and turn-keyed maps. -/
structure ControllerState where
  byThread : String → Option ActiveTurnEntry
  byTurn : String → Option ActiveTurnEntry

/-- runtime.NewTurnController: both maps empty. -/
def ctrlInit : ControllerState := ⟨fun _ => none, fun _ => none⟩

/-- The typed errors of the runtime package. -/
inductive CtrlErr where
  | activeTurnExists
  | turnNotActive
deriving DecidableEq, Repr

/-- Go map assignment or deletion on a string-keyed map. -/
def mapUpdate (m : String → Option ActiveTurnEntry) (k : String)
    (v : Option ActiveTurnEntry) : String → Option ActiveTurnEntry :=
  fun k2 => if k2 = k then v else m k2

/-- runtime.TurnController.Activate: fails with ErrActiveTurnExists when the
thread already has an entry, otherwise inserts into both maps. -/
def ctrlActivate (s : ControllerState) (threadID turnID : String) :
    Except CtrlErr ControllerState :=
  match s.byThread threadID with
  | some _ => .error .activeTurnExists
  | none =>
      let entry : ActiveTurnEntry := ⟨threadID, turnID⟩
      .ok ⟨mapUpdate s.byThread threadID (some entry),
           mapUpdate s.byTurn turnID (some entry)⟩

/-- runtime.TurnController.Release: removes the entry iff the byTurn entry
matches the given thread, guarding against stale releases. -/
def ctrlRelease (s : ControllerState) (threadID turnID : String) :
    ControllerState :=
  match s.byTurn turnID with
  | none => s
  | some entry =>
      if entry.threadID ≠ threadID then s
      else ⟨mapUpdate s.byThread threadID none, mapUpdate s.byTurn turnID none⟩

/-- runtime.TurnController.Cancel: fails with ErrTurnNotActive when the turn
is unknown; the maps are unchanged, the cancel token fires outside. -/
def ctrlCancel (s : ControllerState) (turnID : String) :
    Except CtrlErr ControllerState :=
  match s.byTurn turnID with
  | none => .error .turnNotActive
  | some _ => .ok s

/-- One controller operation. -/
inductive CtrlOp where
  | activate (threadID turnID : String)
  | release (threadID turnID : String)
  | cancel (turnID : String)

/-- Effect of one operation on the controller maps. -/
def ctrlStep (s : ControllerState) (op : CtrlOp) : ControllerState :=
  match op with
  | .activate th tu =>
      match ctrlActivate s th tu with
      | .ok s2 => s2
      | .error _ => s
  | .release th tu => ctrlRelease s th tu
  | .cancel _ => s

/-- Run a sequence of controller operations. -/
def ctrlRun (s : ControllerState) : List CtrlOp → ControllerState
  | [] => s
  | op :: rest => ctrlRun (ctrlStep s op) rest

/-- The handlers mint each turn id freshly (newTurnID), so every activate
operation runs with a turn id that is not yet in byTurn. -/
def FreshRun (s : ControllerState) : List CtrlOp → Prop
  | [] => True
  | op :: rest =>
      (match op with
       | CtrlOp.activate _ tu => s.byTurn tu = none
       | _ => True) ∧ FreshRun (ctrlStep s op) rest

/-- Consistency of the controller maps: every byThread entry is keyed by
its own thread and mirrored in byTurn, and symmetrically. With byThread a
map this gives at most one active entry per thread. -/
def CtrlInv (s : ControllerState) : Prop :=
  (∀ th e, s.byThread th = some e →
      e.threadID = th ∧ s.byTurn e.turnID = some e) ∧
  (∀ tu e, s.byTurn tu = some e →
      e.turnID = tu ∧ s.byThread e.threadID = some e)

/-- handleCreateTurnStream maps an Activate failure to an HTTP status and
error code: ErrActiveTurnExists gives 409 CONFLICT, anything else 500. -/
def activateErrorStatus : CtrlErr → Nat × String
  | .activeTurnExists => (409, "CONFLICT")
  | .turnNotActive => (500, "INTERNAL")

theorem ctrlInv_init : CtrlInv ctrlInit := by
  constructor <;> intro k e he <;> simp [ctrlInit] at he

theorem ctrlInv_activate (s : ControllerState) (th tu : String)
    (s2 : ControllerState) (hInv : CtrlInv s) (hfresh : s.byTurn tu = none)
    (hok : ctrlActivate s th tu = .ok s2) : CtrlInv s2 := by
  obtain ⟨hThread, hTurn⟩ := hInv
  unfold ctrlActivate at hok
  cases hb : s.byThread th with
  | some e => rw [hb] at hok; cases hok
  | none =>
      rw [hb] at hok
      simp only [Except.ok.injEq] at hok
      subst hok
      constructor
      · intro th2 e2 he2
        simp only [mapUpdate] at he2 ⊢
        by_cases hth : th2 = th
        · subst hth
          rw [if_pos rfl] at he2
          cases he2
          simp
        · rw [if_neg hth] at he2
          obtain ⟨h1, h2⟩ := hThread th2 e2 he2
          refine ⟨h1, ?_⟩
          by_cases htu : e2.turnID = tu
          · rw [htu] at h2; rw [hfresh] at h2; cases h2
          · rw [if_neg htu]; exact h2
      · intro tu2 e2 he2
        simp only [mapUpdate] at he2 ⊢
        by_cases htu : tu2 = tu
        · subst htu
          rw [if_pos rfl] at he2
          cases he2
          simp
        · rw [if_neg htu] at he2
          obtain ⟨h1, h2⟩ := hTurn tu2 e2 he2
          refine ⟨h1, ?_⟩
          by_cases hth : e2.threadID = th
          · rw [hth] at h2; rw [hb] at h2; cases h2
          · rw [if_neg hth]; exact h2

theorem ctrlInv_release (s : ControllerState) (th tu : String)
    (hInv : CtrlInv s) : CtrlInv (ctrlRelease s th tu) := by
  obtain ⟨hThread, hTurn⟩ := hInv
  unfold ctrlRelease
  split
  · exact ⟨hThread, hTurn⟩
  · next entry ht =>
      split
      · exact ⟨hThread, hTurn⟩
      · next hne0 =>
        push_neg at hne0
        obtain ⟨hetu, heth⟩ := hTurn tu entry ht
        constructor
        · intro th2 e2 he2
          simp only [mapUpdate] at he2 ⊢
          by_cases hth : th2 = th
          · rw [if_pos hth] at he2; cases he2
          · rw [if_neg hth] at he2
            obtain ⟨h1, h2⟩ := hThread th2 e2 he2
            refine ⟨h1, ?_⟩
            by_cases htu : e2.turnID = tu
            · exfalso
              rw [htu, ht] at h2
              cases h2
              exact hth (h1.symm.trans hne0)
            · rw [if_neg htu]; exact h2
        · intro tu2 e2 he2
          simp only [mapUpdate] at he2 ⊢
          by_cases htu : tu2 = tu
          · rw [if_pos htu] at he2; cases he2
          · rw [if_neg htu] at he2
            obtain ⟨h1, h2⟩ := hTurn tu2 e2 he2
            refine ⟨h1, ?_⟩
            by_cases hth : e2.threadID = th
            · exfalso
              rw [hth] at h2
              rw [hne0] at heth
              rw [heth] at h2
              cases h2
              exact htu (h1.symm.trans hetu)
            · rw [if_neg hth]; exact h2

theorem ctrlInv_run (ops : List CtrlOp) (s : ControllerState)
    (hInv : CtrlInv s) (hfr : FreshRun s ops) : CtrlInv (ctrlRun s ops) := by
  induction ops generalizing s with
  | nil => exact hInv
  | cons op rest ih =>
      obtain ⟨hop, hrest⟩ := hfr
      refine ih (ctrlStep s op) ?_ hrest
      cases op with
      | activate th tu =>
          simp only [ctrlStep]
          cases hact : ctrlActivate s th tu with
          | ok s2 => exact ctrlInv_activate s th tu s2 hInv hop hact
          | error e => exact hInv
      | release th tu => exact ctrlInv_release s th tu hInv
      | cancel tu => exact hInv

/-- C2: under any sequence of activate/release/cancel operations with
freshly minted turn ids, the controller maps stay consistent with at most
one entry per thread; Activate fails with ActiveTurnExists exactly when the
thread already has an unreleased active turn; and the turn-stream handler
maps that failure to HTTP 409 CONFLICT. -/
theorem controller_single_active_turn (ops : List CtrlOp)
    (hfr : FreshRun ctrlInit ops) :
    CtrlInv (ctrlRun ctrlInit ops) ∧
    (∀ s th tu, ctrlActivate s th tu = .error .activeTurnExists ↔
        s.byThread th ≠ none) ∧
    activateErrorStatus .activeTurnExists = (409, "CONFLICT") := by
  refine ⟨ctrlInv_run ops ctrlInit ctrlInv_init hfr, ?_, rfl⟩
  intro s th tu
  constructor
  · intro h hnone
    unfold ctrlActivate at h
    rw [hnone] at h
    cases h
  · intro h
    unfold ctrlActivate
    cases hb : s.byThread th with
    | some e => rfl
    | none => exact absurd hb h

/-- Witness for C2: a concrete trace that activates, conflicts, releases
and re-activates one thread. -/
theorem controller_single_active_turn_witness :
    FreshRun ctrlInit [CtrlOp.activate "A" "t1", CtrlOp.activate "A" "t2",
      CtrlOp.release "A" "t1", CtrlOp.activate "A" "t2"] ∧
    (CtrlInv (ctrlRun ctrlInit [CtrlOp.activate "A" "t1", CtrlOp.activate "A" "t2",
        CtrlOp.release "A" "t1", CtrlOp.activate "A" "t2"]) ∧
     (∀ s th tu, ctrlActivate s th tu = .error .activeTurnExists ↔
        s.byThread th ≠ none) ∧
     activateErrorStatus .activeTurnExists = (409, "CONFLICT")) :=
  have hfr : FreshRun ctrlInit [CtrlOp.activate "A" "t1", CtrlOp.activate "A" "t2",
      CtrlOp.release "A" "t1", CtrlOp.activate "A" "t2"] := by
    simp [FreshRun, ctrlStep, ctrlActivate, ctrlRelease, ctrlInit, mapUpdate]
  ⟨hfr, controller_single_active_turn _ hfr⟩

/-- Permission outcome strings of the agents package. -/
def permDeclined : String := "declined"

/-- One pendingPermission: the owning client and the exactly-once committed
outcome of its one-slot channel (a sync.Once guarding a buffered channel). -/
structure PendingPermission where
  clientID : String
  committed : Option String
deriving DecidableEq, Repr

/-- pendingPermission.Resolve: commits the outcome only when not yet
resolved and reports whether this call resolved it. -/
def pendingResolve (p : PendingPermission) (outcome : String) :
    PendingPermission × Bool :=
  match p.committed with
  | some _ => (p, false)
  | none => ({ p with committed := some outcome }, true)

/-- Reading the outcome channel once resolved: the committed value, with a
closed channel or a blank outcome mapped to declined. -/
def drainOutcome (p : PendingPermission) : String :=
  match p.committed with
  | some o => if o = "" then permDeclined else o
  | none => permDeclined

/-- Which select branch fires inside waitPermissionOutcome: a committed
decision on the channel, the permission timer, or turn-context
cancellation. -/
inductive WaitTrigger where
  | decision
  | timeout
  | ctxCancelled
deriving DecidableEq, Repr

/-- Server.waitPermissionOutcome: a committed decision is read from the
channel; on timer fire or context cancellation the bridge resolves
declined (a no-op when already resolved) and then still drains the
channel to return the committed value. -/
def waitPermissionOutcome (tr : WaitTrigger) (p : PendingPermission) : String :=
  match tr with
  | .decision => drainOutcome p
  | .timeout => drainOutcome (pendingResolve p permDeclined).1
  | .ctxCancelled => drainOutcome (pendingResolve p permDeclined).1

/-- C3: with no decision committed before timeout or cancellation the
bridge returns declined; a decision committed beforehand is returned
unchanged whichever branch fires; and resolution is exactly-once. -/
theorem permission_wait_fail_closed (p : PendingPermission) (tr : WaitTrigger) :
    (p.committed = none → tr ≠ WaitTrigger.decision →
      waitPermissionOutcome tr p = permDeclined) ∧
    (∀ o, p.committed = some o → o ≠ "" → waitPermissionOutcome tr p = o) ∧
    (∀ o o2, p.committed = some o →
      (pendingResolve p o2).1 = p ∧ (pendingResolve p o2).2 = false) := by
  refine ⟨?_, ?_, ?_⟩
  · intro hnone htr
    cases tr with
    | decision => exact absurd rfl htr
    | timeout => simp [waitPermissionOutcome, pendingResolve, drainOutcome, hnone, permDeclined]
    | ctxCancelled => simp [waitPermissionOutcome, pendingResolve, drainOutcome, hnone, permDeclined]
  · intro o ho hne
    cases tr <;> simp [waitPermissionOutcome, pendingResolve, drainOutcome, ho, hne]
  · intro o o2 ho
    simp [pendingResolve, ho]

/-- Witness for C3: an unresolved pending hit by the timeout resolves to
declined, and a committed approval survives the timeout branch. -/
theorem permission_wait_fail_closed_witness :
    ((⟨"client-a", none⟩ : PendingPermission).committed = none ∧
      WaitTrigger.timeout ≠ WaitTrigger.decision ∧
      waitPermissionOutcome WaitTrigger.timeout ⟨"client-a", none⟩ = permDeclined) ∧
    ((⟨"client-a", some "approved"⟩ : PendingPermission).committed = some "approved" ∧
      waitPermissionOutcome WaitTrigger.timeout ⟨"client-a", some "approved"⟩ = "approved") :=
  ⟨⟨rfl, by decide,
      (permission_wait_fail_closed ⟨"client-a", none⟩ WaitTrigger.timeout).1 rfl (by decide)⟩,
   ⟨rfl,
      (permission_wait_fail_closed ⟨"client-a", some "approved"⟩ WaitTrigger.timeout).2.1
        "approved" rfl (by decide)⟩⟩

/-- Typed storage failure: the package-level ErrNotFound against any other
storage error. -/
inductive StoreErr where
  | notFound
  | generic (msg : String)
deriving DecidableEq, Repr

/-- Persisted thread row fields used by the ownership check. -/
structure StThread where
  threadID : String
  clientID : String
  summary : String
deriving DecidableEq, Repr

/-- Unified error envelope fields: HTTP status, error code, message. -/
structure HttpError where
  status : Nat
  code : String
  message : String
deriving DecidableEq, Repr

/-- Server.getOwnedThread: any GetThread failure, or a thread owned by a
different client, yields no thread. -/
def getOwnedThread (lookup : Except StoreErr StThread) (clientID : String) :
    Option StThread :=
  match lookup with
  | .error _ => none
  | .ok t => if t.clientID ≠ clientID then none else some t

/-- handleGetThread on the lookup outcome: 404 NOT_FOUND whenever
getOwnedThread reports no owned thread, otherwise the thread. -/
def handleGetThread (lookup : Except StoreErr StThread) (clientID : String) :
    Except HttpError StThread :=
  match getOwnedThread lookup clientID with
  | none => .error ⟨404, "NOT_FOUND", "thread not found"⟩
  | some t => .ok t

/-- handleCancelTurn mapping of a GetTurn failure: the typed not-found
gives 404, any other storage failure gives 500 INTERNAL. -/
def cancelTurnLookupFailure : StoreErr → HttpError
  | .notFound => ⟨404, "NOT_FOUND", "turn not found"⟩
  | .generic _ => ⟨500, "INTERNAL", "failed to load turn"⟩

/-- Association lookup in the in-memory permission registry. -/
def permLookup (reg : List (String × PendingPermission)) (pid : String) :
    Option PendingPermission :=
  match reg with
  | [] => none
  | (k, p) :: rest => if k = pid then some p else permLookup rest pid

/-- The typed errors of Server.resolvePermission. -/
inductive PermErr where
  | notFound
  | alreadyResolved
deriving DecidableEq, Repr

/-- Server.resolvePermission: an unknown id and a pending owned by a
different client both give the same not-found; a second resolution gives
already-resolved. -/
def resolvePermission (reg : List (String × PendingPermission))
    (pid clientID outcome : String) : Except PermErr PendingPermission :=
  match permLookup reg pid with
  | none => .error .notFound
  | some p =>
      if p.clientID ≠ clientID then .error .notFound
      else if (pendingResolve p outcome).2 then .ok (pendingResolve p outcome).1
      else .error .alreadyResolved

/-- handlePermissionDecision: HTTP response derived from resolvePermission. -/
def permissionDecisionResponse (reg : List (String × PendingPermission))
    (pid clientID outcome : String) : HttpError :=
  match resolvePermission reg pid clientID outcome with
  | .error .notFound => ⟨404, "NOT_FOUND", "permission not found"⟩
  | .error .alreadyResolved => ⟨409, "CONFLICT", "permission already resolved"⟩
  | .ok _ => ⟨200, "recorded", outcome⟩

/-- C8: a missing thread and a thread owned by another client produce the
same 404 response, and a missing pending permission and a pending owned by
another client produce the same 404 response. -/
theorem cross_client_indistinguishable_from_missing (clientID : String)
    (t : StThread) (reg1 reg2 : List (String × PendingPermission))
    (pid outcome : String) (p : PendingPermission)
    (ht : t.clientID ≠ clientID)
    (h1 : permLookup reg1 pid = none) (h2 : permLookup reg2 pid = some p)
    (hp : p.clientID ≠ clientID) :
    handleGetThread (.error .notFound) clientID = handleGetThread (.ok t) clientID ∧
    permissionDecisionResponse reg1 pid clientID outcome =
      permissionDecisionResponse reg2 pid clientID outcome := by
  constructor
  · simp [handleGetThread, getOwnedThread, if_pos ht]
  · simp [permissionDecisionResponse, resolvePermission, h1, h2, if_pos hp]

/-- Witness for C8: concrete cross-client thread and permission requests
collapse to the same not-found responses as truly missing resources. -/
theorem cross_client_indistinguishable_from_missing_witness :
    ((⟨"th1", "client-a", ""⟩ : StThread).clientID ≠ "client-b" ∧
      permLookup [] "perm_1" = none ∧
      permLookup [("perm_1", ⟨"client-a", none⟩)] "perm_1" =
        some ⟨"client-a", none⟩ ∧
      (⟨"client-a", none⟩ : PendingPermission).clientID ≠ "client-b") ∧
    (handleGetThread (.error .notFound) "client-b" =
        handleGetThread (.ok ⟨"th1", "client-a", ""⟩) "client-b" ∧
      permissionDecisionResponse [] "perm_1" "client-b" "approved" =
        permissionDecisionResponse [("perm_1", ⟨"client-a", none⟩)] "perm_1"
          "client-b" "approved") :=
  ⟨⟨by decide, rfl, by decide, by decide⟩,
    cross_client_indistinguishable_from_missing "client-b" ⟨"th1", "client-a", ""⟩
      [] [("perm_1", ⟨"client-a", none⟩)] "perm_1" "approved" ⟨"client-a", none⟩
      (by decide) rfl (by decide) (by decide)⟩

/-- Projection for refuting the C9 status claim: HTTP status of a
handleGetThread outcome. -/
def getThreadStatus (r : Except HttpError StThread) : Nat :=
  match r with
  | .error e => e.status
  | .ok _ => 200

/-- Projection for refuting the C9 code claim: error code of a
handleGetThread outcome. -/
def getThreadCode (r : Except HttpError StThread) : String :=
  match r with
  | .error e => e.code
  | .ok _ => ""

/-- C9 counterexample: a generic storage failure on the thread lookup
yields 404 NOT_FOUND from GET /v1/threads/{id}, not 500 INTERNAL. -/
theorem get_thread_generic_failure_counterexample :
    getThreadStatus (handleGetThread (.error (.generic "disk I/O error")) "client-a") = 404 ∧
    getThreadCode (handleGetThread (.error (.generic "disk I/O error")) "client-a") = "NOT_FOUND" ∧
    getThreadStatus (handleGetThread (.error (.generic "disk I/O error")) "client-a") ≠ 500 ∧
    getThreadCode (handleGetThread (.error (.generic "disk I/O error")) "client-a") ≠ "INTERNAL" :=
  ⟨rfl, rfl, by decide, by decide⟩

/-- C9 amended: getOwnedThread folds every lookup failure into not-found,
so GET /v1/threads/{id} answers 404 for generic failures as well; the
typed not-found against generic distinction maps to 404 against 500 in the
cancel endpoint's turn lookup instead. -/
theorem get_thread_failure_mapping (msg clientID : String) :
    handleGetThread (.error (.generic msg)) clientID =
      .error ⟨404, "NOT_FOUND", "thread not found"⟩ ∧
    handleGetThread (.error .notFound) clientID =
      .error ⟨404, "NOT_FOUND", "thread not found"⟩ ∧
    cancelTurnLookupFailure (.generic msg) = ⟨500, "INTERNAL", "failed to load turn"⟩ ∧
    cancelTurnLookupFailure .notFound = ⟨404, "NOT_FOUND", "turn not found"⟩ :=
  ⟨rfl, rfl, rfl, rfl⟩

/-- Concatenation of a list of strings in order. -/
def concatAll : List String → String
  | [] => ""
  | s :: rest => s ++ concatAll rest

/-- One persisted event of the turn pipeline, with the payload field the
delta round-trip inspects. -/
structure PipeEvent where
  etype : String
  delta : String
deriving DecidableEq, Repr

/-- Delta payloads of the persisted message_delta events, in seq order. -/
def messageDeltas (events : List PipeEvent) : List String :=
  events.filterMap (fun e => if e.etype = "message_delta" then some e.delta else none)

/-- The onDelta loop of the pipeline: each delta is written to the rune
buffer first and then emitted; emit persists before streaming, and an emit
failure stops the provider stream with the failing event not persisted.
emitOk gives each message_delta emit's success. -/
def streamDeltas (emitOk : Nat → Bool) : Nat → List String →
    List PipeEvent × String × Bool
  | _, [] => ([], "", true)
  | idx, d :: rest =>
      if emitOk idx then
        let r := streamDeltas emitOk (idx + 1) rest
        (⟨"message_delta", d⟩ :: r.1, d ++ r.2.1, r.2.2)
      else ([], d, false)

/-- Terminal outcome of one streamed turn as the pipeline finalizes it. -/
structure TurnFinal where
  events : List PipeEvent
  responseText : String
  status : String
  stopReason : String
deriving DecidableEq, Repr

/-- handleCreateTurnStream after the turn row exists: emit turn_started,
drive the provider with one message_delta emit per delta, classify the
outcome, emit an error event on stream failure then turn_completed, and
finalize with the accumulated response text. startedOk, errorEmitOk and
completedEmitOk give those emits' success; providerErr and
providerCancelled give the provider verdict. -/
def runTurnStreamPipeline (deltas : List String) (startedOk : Bool)
    (deltaEmitOk : Nat → Bool) (providerErr : Option String)
    (providerCancelled : Bool) (errorEmitOk completedEmitOk : Bool) :
    TurnFinal :=
  if startedOk = false then
    { events := [], responseText := "", status := "failed", stopReason := "error" }
  else
    let r := streamDeltas deltaEmitOk 0 deltas
    let streamErr : Option String :=
      if r.2.2 then providerErr else some "append message_delta failed"
    let st1 : String × String :=
      match streamErr with
      | some _ => ("failed", "error")
      | none =>
          if providerCancelled then ("cancelled", "cancelled")
          else ("completed", "end_turn")
    let errorEvents : List PipeEvent :=
      match streamErr with
      | some _ => if errorEmitOk then [⟨"error", ""⟩] else []
      | none => []
    let st2 : String × String :=
      if completedEmitOk then st1
      else if st1.1 = "completed" then ("failed", "error") else st1
    let completedEvents : List PipeEvent :=
      if completedEmitOk then [⟨"turn_completed", ""⟩] else []
    { events := ⟨"turn_started", ""⟩ :: r.1 ++ errorEvents ++ completedEvents
      responseText := r.2.1
      status := st2.1
      stopReason := st2.2 }

theorem streamDeltas_all_ok (emitOk : Nat → Bool) (idx : Nat)
    (deltas : List String)
    (h : (streamDeltas emitOk idx deltas).2.2 = true) :
    messageDeltas (streamDeltas emitOk idx deltas).1 = deltas ∧
    (streamDeltas emitOk idx deltas).2.1 = concatAll deltas := by
  induction deltas generalizing idx with
  | nil => simp [streamDeltas, messageDeltas, concatAll]
  | cons d rest ih =>
      by_cases he : emitOk idx
      · simp only [streamDeltas, he, if_true] at h ⊢
        obtain ⟨h1, h2⟩ := ih (idx + 1) h
        constructor
        · simp [messageDeltas] at h1 ⊢
          exact h1
        · rw [concatAll, ← h2]
      · simp [streamDeltas, he] at h

/-- C4: whenever the stream pipeline finalizes a turn with status
completed, the persisted response text equals the concatenation, in seq
order, of the delta payloads of the persisted message_delta events. -/
theorem completed_turn_delta_round_trip (deltas : List String)
    (startedOk : Bool) (deltaEmitOk : Nat → Bool) (providerErr : Option String)
    (providerCancelled : Bool) (errorEmitOk completedEmitOk : Bool)
    (hc : (runTurnStreamPipeline deltas startedOk deltaEmitOk providerErr
        providerCancelled errorEmitOk completedEmitOk).status = "completed") :
    (runTurnStreamPipeline deltas startedOk deltaEmitOk providerErr
        providerCancelled errorEmitOk completedEmitOk).responseText =
      concatAll (messageDeltas (runTurnStreamPipeline deltas startedOk
        deltaEmitOk providerErr providerCancelled errorEmitOk
        completedEmitOk).events) := by
  cases startedOk with
  | false => simp [runTurnStreamPipeline] at hc
  | true =>
      cases hr : (streamDeltas deltaEmitOk 0 deltas).2.2 with
      | false =>
          exfalso
          cases hec : errorEmitOk <;> cases hcc : completedEmitOk <;>
            simp [runTurnStreamPipeline, hr, hec, hcc] at hc
      | true =>
          cases providerErr with
          | some msg =>
              exfalso
              cases hec : errorEmitOk <;> cases hcc : completedEmitOk <;>
                simp [runTurnStreamPipeline, hr, hec, hcc] at hc
          | none =>
              cases providerCancelled with
              | true =>
                  exfalso
                  cases hcc : completedEmitOk <;>
                    simp [runTurnStreamPipeline, hr, hcc] at hc
              | false =>
                  cases hcc : completedEmitOk with
                  | false => simp [runTurnStreamPipeline, hr, hcc] at hc
                  | true =>
                      obtain ⟨h1, h2⟩ := streamDeltas_all_ok deltaEmitOk 0 deltas hr
                      simp [runTurnStreamPipeline, hr, hcc, messageDeltas] at h1 ⊢
                      rw [h1, h2]

/-- Witness for C4: a concrete fully successful stream over two deltas. -/
theorem completed_turn_delta_round_trip_witness :
    (runTurnStreamPipeline ["hel", "lo "] true (fun _ => true) none false
        true true).status = "completed" ∧
    (runTurnStreamPipeline ["hel", "lo "] true (fun _ => true) none false
        true true).responseText =
      concatAll (messageDeltas (runTurnStreamPipeline ["hel", "lo "] true
        (fun _ => true) none false true true).events) :=
  ⟨by decide,
    completed_turn_delta_round_trip ["hel", "lo "] true (fun _ => true) none
      false true true (by decide)⟩

/-- One persisted row of the events table. -/
structure EventRec where
  turnID : String
  seq : Nat
  etype : String
  dataJson : String
deriving DecidableEq, Repr

/-- SELECT COALESCE(MAX(seq), 0) FROM events WHERE turn_id equals the
given turn. -/
def maxSeqFor (table : List EventRec) (turnID : String) : Nat :=
  (table.filter (fun e => e.turnID == turnID)).foldr (fun e acc => max e.seq acc) 0

/-- storage.AppendEvent: validates the ids, defaults a blank dataJson to
"{}", and inserts with seq = MAX(seq) + 1; the read and the insert run in
one transaction on the single storage connection. -/
def appendEvent (table : List EventRec) (turnID etype dataJson : String) :
    Except String (List EventRec × EventRec) :=
  if goTrimSpace turnID = "" then .error "storage: turnID is required"
  else if goTrimSpace etype = "" then .error "storage: event type is required"
  else
    let dj := if goTrimSpace dataJson = "" then "{}" else dataJson
    let ev : EventRec := ⟨turnID, maxSeqFor table turnID + 1, etype, dj⟩
    .ok (ev :: table, ev)

/-- Successive AppendEvent calls for one turn, stopping on a failure. -/
def appendEvents (table : List EventRec) (turnID : String) :
    List (String × String) → List EventRec × List EventRec
  | [] => (table, [])
  | (ty, dj) :: rest =>
      match appendEvent table turnID ty dj with
      | .error _ => (table, [])
      | .ok (table2, ev) =>
          let r := appendEvents table2 turnID rest
          (r.1, ev :: r.2)

theorem appendEvents_seqs (calls : List (String × String))
    (table : List EventRec) (tid : String) (k : Nat)
    (hk : maxSeqFor table tid = k) (htid : ¬ goTrimSpace tid = "")
    (hcalls : ∀ c ∈ calls, ¬ goTrimSpace c.1 = "") :
    (appendEvents table tid calls).2.map EventRec.seq =
      List.range' (k + 1) calls.length := by
  induction calls generalizing table k with
  | nil => simp [appendEvents]
  | cons c rest ih =>
      obtain ⟨ty, dj⟩ := c
      have hty : ¬ goTrimSpace ty = "" := hcalls (ty, dj) (List.mem_cons_self _ _)
      simp only [appendEvents, appendEvent, htid, hty, if_neg, if_false, hk]
      have hcons : ∀ ev : EventRec, ev.turnID = tid →
          maxSeqFor (ev :: table) tid = max ev.seq (maxSeqFor table tid) := by
        intro ev hev
        simp [maxSeqFor, List.filter_cons, hev]
      have hnext :
          maxSeqFor ((⟨tid, k + 1, ty,
              if goTrimSpace dj = "" then "{}" else dj⟩ : EventRec) :: table) tid
            = k + 1 := by
        rw [hcons _ rfl, hk]
        show max (k + 1) k = k + 1
        omega
      have hrest := ih _ _ hnext (fun c hc => hcalls c (List.mem_cons_of_mem _ hc))
      simp only [List.map_cons, hrest, List.length_cons]
      rfl

/-- C5: every successful AppendEvent computes seq as MAX(seq) for its turn
plus one and stores a blank dataJson as the literal "{}"; N successive
successful calls on a turn with no prior events produce seq values exactly
1 through N in call order. -/
theorem append_event_sequence (table : List EventRec) (tid dj : String)
    (calls : List (String × String))
    (htid : ¬ goTrimSpace tid = "") (hfresh : maxSeqFor table tid = 0)
    (hcalls : ∀ c ∈ calls, ¬ goTrimSpace c.1 = "") :
    (∀ (t0 table2 : List EventRec) (ty : String) (ev : EventRec),
        appendEvent t0 tid ty dj = .ok (table2, ev) →
        ev.seq = maxSeqFor t0 tid + 1 ∧
        (goTrimSpace dj = "" → ev.dataJson = "{}")) ∧
    (appendEvents table tid calls).2.map EventRec.seq =
      List.range' 1 calls.length := by
  constructor
  · intro t0 table2 ty ev hok
    unfold appendEvent at hok
    rw [if_neg htid] at hok
    by_cases hty : goTrimSpace ty = ""
    · rw [if_pos hty] at hok; cases hok
    · rw [if_neg hty] at hok
      simp only [Except.ok.injEq, Prod.mk.injEq] at hok
      obtain ⟨-, hev⟩ := hok
      subst hev
      refine ⟨rfl, fun hdj => ?_⟩
      simp [hdj]
  · simpa using appendEvents_seqs calls table tid 0 hfresh htid hcalls

/-- Witness for C5: three concrete appends on a fresh turn, the second
with a blank dataJson, produce seq values 1, 2, 3. -/
theorem append_event_sequence_witness :
    (¬ goTrimSpace "tu_1" = "" ∧ maxSeqFor [] "tu_1" = 0 ∧
      ∀ c ∈ [("turn_started", "\x7b\x7d"), ("message_delta", "  "),
        ("turn_completed", "\x7b\x7d")], ¬ goTrimSpace c.1 = "") ∧
    (appendEvents [] "tu_1" [("turn_started", "\x7b\x7d"), ("message_delta", "  "),
        ("turn_completed", "\x7b\x7d")]).2.map EventRec.seq =
      List.range' 1 3 :=
  ⟨⟨by decide, rfl, by decide⟩,
    (append_event_sequence [] "tu_1" " " [("turn_started", "\x7b\x7d"),
        ("message_delta", "  "), ("turn_completed", "\x7b\x7d")]
      (by decide) rfl (by decide)).2⟩

/-- Provider stream errors as seen by classifyStreamErrorCode. -/
inductive GoStreamErr where
  | deadlineExceeded
  | canceled
  | other (msg : String)
deriving DecidableEq, Repr

/-- classifyStreamErrorCode: context deadline or cancellation classify as
TIMEOUT, any other error as UPSTREAM_UNAVAILABLE, a nil error as INTERNAL. -/
def classifyStreamErrorCode : Option GoStreamErr → String
  | none => "INTERNAL"
  | some .deadlineExceeded => "TIMEOUT"
  | some .canceled => "TIMEOUT"
  | some (.other _) => "UPSTREAM_UNAVAILABLE"

/-- Outcome of handleCompactThread after the provider stream returned:
the threads.summary value after the handler, the finalized turn fields,
and the HTTP response payload. -/
structure CompactResult where
  summaryAfter : String
  finalStatus : String
  finalReason : String
  httpStatus : Nat
  respSummary : Option String
  respSummaryChars : Option Nat
deriving DecidableEq, Repr

/-- handleCompactThread finalization: classify the stream outcome, append
turn_completed (a failure downgrades a completed turn), rune-truncate the
trimmed accumulated response to the summary limit, write threads.summary
only on completed with end_turn (a failed write downgrades to failed and
leaves the summary as it was), finalize, and build the HTTP response.
oldSummary is threads.summary before the call; turnCompletedOk and
updateOk give the turn_completed append's and the summary update's
success. -/
def runCompactFinalize (oldSummary aggregated : String) (summaryLimit : Int)
    (streamErr : Option GoStreamErr) (stopCancelled : Bool)
    (turnCompletedOk updateOk : Bool) : CompactResult :=
  let st1 : String × String :=
    match streamErr with
    | some _ => ("failed", "error")
    | none =>
        if stopCancelled then ("cancelled", "cancelled")
        else ("completed", "end_turn")
  let st2 : String × String :=
    if turnCompletedOk then st1
    else if streamErr.isSome then st1
    else if st1.1 = "completed" then ("failed", "error") else st1
  let newSummary := clampToChars (goTrimSpace aggregated) summaryLimit
  let step : String × String × String :=
    if st2.1 = "completed" ∧ st2.2 = "end_turn" then
      if updateOk then (st2.1, st2.2, newSummary)
      else ("failed", "error", oldSummary)
    else (st2.1, st2.2, oldSummary)
  if step.1 ≠ "completed" then
    let code : String :=
      match streamErr with
      | some e => classifyStreamErrorCode (some e)
      | none => "INTERNAL"
    { summaryAfter := step.2.2
      finalStatus := step.1
      finalReason := step.2.1
      httpStatus :=
        if code = "TIMEOUT" then 504
        else if code = "UPSTREAM_UNAVAILABLE" then 503
        else 500
      respSummary := none
      respSummaryChars := none }
  else
    { summaryAfter := step.2.2
      finalStatus := step.1
      finalReason := step.2.1
      httpStatus := 200
      respSummary := some newSummary
      respSummaryChars := some (runeLen newSummary) }

/-- C10: compact writes threads.summary, namely the accumulated response
trimmed and rune-truncated to the summary limit, exactly when the compact
turn ends completed with end_turn, returning that summary and its rune
length with HTTP 200; a cancelled or failed compact turn leaves
threads.summary unchanged. -/
theorem compact_updates_summary_only_on_completed (oldSummary aggregated : String)
    (summaryLimit : Int) (streamErr : Option GoStreamErr) (stopCancelled : Bool)
    (turnCompletedOk updateOk : Bool) :
    ((runCompactFinalize oldSummary aggregated summaryLimit streamErr
        stopCancelled turnCompletedOk updateOk).finalStatus = "completed" ∧
     (runCompactFinalize oldSummary aggregated summaryLimit streamErr
        stopCancelled turnCompletedOk updateOk).finalReason = "end_turn" →
      (runCompactFinalize oldSummary aggregated summaryLimit streamErr
          stopCancelled turnCompletedOk updateOk).summaryAfter =
        clampToChars (goTrimSpace aggregated) summaryLimit ∧
      (runCompactFinalize oldSummary aggregated summaryLimit streamErr
          stopCancelled turnCompletedOk updateOk).respSummary =
        some (clampToChars (goTrimSpace aggregated) summaryLimit) ∧
      (runCompactFinalize oldSummary aggregated summaryLimit streamErr
          stopCancelled turnCompletedOk updateOk).respSummaryChars =
        some (runeLen (clampToChars (goTrimSpace aggregated) summaryLimit)) ∧
      (runCompactFinalize oldSummary aggregated summaryLimit streamErr
          stopCancelled turnCompletedOk updateOk).httpStatus = 200) ∧
    ((runCompactFinalize oldSummary aggregated summaryLimit streamErr
        stopCancelled turnCompletedOk updateOk).finalStatus = "cancelled" ∨
     (runCompactFinalize oldSummary aggregated summaryLimit streamErr
        stopCancelled turnCompletedOk updateOk).finalStatus = "failed" →
      (runCompactFinalize oldSummary aggregated summaryLimit streamErr
          stopCancelled turnCompletedOk updateOk).summaryAfter = oldSummary) := by
  cases streamErr <;> cases stopCancelled <;> cases turnCompletedOk <;>
    cases updateOk <;> simp [runCompactFinalize]

/-- Witness for C10: a concrete successful compact writes the clamped
summary, and a concrete cancelled compact leaves the old summary. -/
theorem compact_updates_summary_only_on_completed_witness :
    ((runCompactFinalize "old summary" " new rolling summary " 12 none false
        true true).finalStatus = "completed" ∧
     (runCompactFinalize "old summary" " new rolling summary " 12 none false
        true true).finalReason = "end_turn" ∧
     (runCompactFinalize "old summary" " new rolling summary " 12 none false
        true true).summaryAfter =
       clampToChars (goTrimSpace " new rolling summary ") 12 ∧
     (runCompactFinalize "old summary" " new rolling summary " 12 none false
        true true).httpStatus = 200) ∧
    ((runCompactFinalize "old summary" " partial " 12 none true true
        true).finalStatus = "cancelled" ∧
     (runCompactFinalize "old summary" " partial " 12 none true true
        true).summaryAfter = "old summary") :=
  ⟨⟨by decide, by decide,
      ((compact_updates_summary_only_on_completed "old summary"
          " new rolling summary " 12 none false true true).1
        ⟨by decide, by decide⟩).1,
      ((compact_updates_summary_only_on_completed "old summary"
          " new rolling summary " 12 none false true true).1
        ⟨by decide, by decide⟩).2.2.2⟩,
   ⟨by decide,
      (compact_updates_summary_only_on_completed "old summary" " partial " 12
          none true true true).2 (Or.inl (by decide))⟩⟩
